import Mathlib

/-!
Verification development for the Aurora Motors backend API.

The embedding models documents as association lists of string keys to a
JSON-like value type, mirroring the raw dictionaries that the MongoDB
driver hands to the FastAPI handlers in `src/main.py`.  Monetary and numeric
fields are modelled as integers: the demo data and every pricing rule use
only integral amounts, and no verified property depends on fractional
values.  The storage-access helpers (`database.py`) are not
part of the sources and are modelled from the specification, §4.1.
-/

namespace AuroraAPI

/-- A JSON-like document value, as stored in a MongoDB collection. -/
inductive Value where
  | null
  | bool (b : Bool)
  | num (n : Int)
  | str (s : String)
  | arr (xs : List Value)
  | obj (fields : List (String × Value))

/-- A raw document: a Python dict with string keys, in insertion order. -/
abbrev Doc : Type := List (String × Value)

/-- Field access on a raw document (Python `d.get(k)` / `d[k]`). -/
def getField (d : Doc) (k : String) : Option Value :=
  match d with
  | [] => none
  | (k', v) :: rest => if k' = k then some v else getField rest k

/-- `d.pop("_id", None)`: the document without its storage identifier. -/
def popId : Doc → Doc
  | [] => []
  | (k, v) :: rest => if k = "_id" then popId rest else (k, v) :: popId rest

/-- ASCII lower-casing of a character, as the `i` regex option applies it. -/
def lowerChar (c : Char) : Char :=
  if 'A' ≤ c ∧ c ≤ 'Z' then Char.ofNat (c.toNat + 32) else c

/-- Does the pattern (first argument) start the given character list? -/
def leadsWith : List Char → List Char → Bool
  | [], _ => true
  | _ :: _, [] => false
  | a :: as, b :: bs => a == b && leadsWith as bs

/-- Does the pattern occur somewhere inside the character list? -/
def hasSubAux (n : List Char) : List Char → Bool
  | [] => n.isEmpty
  | c :: t => leadsWith n (c :: t) || hasSubAux n t

/-- Python `needle in haystack` on strings: substring containment. -/
def strContainsSub (h n : String) : Bool :=
  hasSubAux n.toList h.toList

/-- Case-insensitive substring containment, as a `$regex` with the
case-insensitivity option behaves on a plain pattern. -/
def containsInsens (h n : String) : Bool :=
  hasSubAux (n.toList.map lowerChar) (h.toList.map lowerChar)

/-- Modelled from the spec: pydantic `EmailStr` validation (the
`email-validator` package is not part of the repository).  Modelled as a
single `@` separating a nonempty local part from a nonempty dotted domain,
with no spaces anywhere. -/
def isValidEmail (s : String) : Bool :=
  let cs := s.toList
  let rest := cs.dropWhile (fun c => !(c == '@'))
  match rest with
  | '@' :: domain =>
    !(cs.takeWhile (fun c => !(c == '@'))).isEmpty &&
    !domain.isEmpty &&
    !(domain.contains '@') &&
    domain.contains '.' &&
    !(cs.contains ' ')
  | _ => false

/-- Python truthiness of an optional string (`None` and `""` are falsy). -/
def optStrTruthy : Option String → Bool
  | none => false
  | some s => !(s == "")

/-- Python truthiness of an optional list (`None` and `[]` are falsy). -/
def optListTruthy : Option (List String) → Bool
  | none => false
  | some l => !l.isEmpty

/-- Python truthiness of a document value. -/
def valueTruthy : Value → Bool
  | Value.null => false
  | Value.bool b => b
  | Value.num n => !(n == 0)
  | Value.str s => !(s == "")
  | Value.arr l => !l.isEmpty
  | Value.obj f => !f.isEmpty

/-- Truthiness of `d.get(k)`: a missing field is `None`, hence falsy. -/
def valueTruthyOpt : Option Value → Bool
  | none => false
  | some v => valueTruthy v

/-- A single condition of a MongoDB filter as built by `main.py`: either an
equality against `True`, an equality against a string, or a `$regex` with
the case-insensitivity option. -/
inductive Cond where
  | eqTrue
  | eqStr (s : String)
  | regexI (pat : String)

/-- A MongoDB filter document, as built by the handlers. -/
abbrev Query : Type := List (String × Cond)

/-- Modelled from the spec: how one filter condition matches a stored
document.  Equality requires the field to be present with the same value;
the regex condition requires a string field containing the pattern
case-insensitively (§3: "city (case-insensitive substring)"). -/
def matchCond (d : Doc) : String × Cond → Bool
  | (k, Cond.eqTrue) =>
    match getField d k with
    | some (Value.bool b) => b
    | _ => false
  | (k, Cond.eqStr s) =>
    match getField d k with
    | some (Value.str t) => t == s
    | _ => false
  | (k, Cond.regexI pat) =>
    match getField d k with
    | some (Value.str t) => containsInsens t pat
    | _ => false

/-- A document matches a filter when it matches every condition. -/
def matchesQ (d : Doc) (q : Query) : Bool :=
  q.all (fun c => matchCond d c)

/-- The whole database: one list of raw documents per collection used by
the application, plus a counter for assigning storage identifiers. -/
structure DB where
  carmodel : List Doc
  promotion : List Doc
  dealer : List Doc
  lead : List Doc
  nextId : Nat

/-- The database with all collections empty. -/
def emptyDB : DB := ⟨[], [], [], [], 0⟩

/-- The named collection of the database. -/
def collOf (db : DB) (coll : String) : List Doc :=
  if coll = "carmodel" then db.carmodel
  else if coll = "promotion" then db.promotion
  else if coll = "dealer" then db.dealer
  else if coll = "lead" then db.lead
  else []

/-- Modelled from the spec (§4.1): `find(collectionName, filter, limit?)`
returns the stored documents matching the filter, in storage order,
optionally capped to the first `limit` results. -/
def get_documents (db : DB) (coll : String) (q : Query) (lim : Option Nat) : List Doc :=
  let docs := (collOf db coll).filter (fun d => matchesQ d q)
  match lim with
  | none => docs
  | some n => docs.take n

/-- Modelled from the spec (§4.1): `insert(collectionName, document)`
assigns a fresh storage identifier, stores the document in the named
collection, and returns the identifier. -/
def create_document (db : DB) (coll : String) (d : Doc) : String × DB :=
  let idStr := toString db.nextId
  let stored : Doc := ("_id", Value.str idStr) :: d
  let db' :=
    if coll = "carmodel" then { db with carmodel := db.carmodel ++ [stored], nextId := db.nextId + 1 }
    else if coll = "promotion" then { db with promotion := db.promotion ++ [stored], nextId := db.nextId + 1 }
    else if coll = "dealer" then { db with dealer := db.dealer ++ [stored], nextId := db.nextId + 1 }
    else if coll = "lead" then { db with lead := db.lead ++ [stored], nextId := db.nextId + 1 }
    else db
  (idStr, db')

/-- `count_documents(filter)` on a collection. -/
def count_documents (db : DB) (coll : String) (q : Query) : Nat :=
  ((collOf db coll).filter (fun d => matchesQ d q)).length

/-- Is this document value a string? -/
def isStrV : Value → Bool
  | Value.str _ => true
  | _ => false

/-- Is this document value a boolean? -/
def isBoolV : Value → Bool
  | Value.bool _ => true
  | _ => false

/-- Is this document value a number? -/
def isNumV : Value → Bool
  | Value.num _ => true
  | _ => false

/-- Is this document value an embedded object? -/
def isObjV : Value → Bool
  | Value.obj _ => true
  | _ => false

/-- Is this document value a non-negative number (`ge=0`)? -/
def isNonnegNumV : Value → Bool
  | Value.num n => decide (0 ≤ n)
  | _ => false

/-- Is this document value an array with every element satisfying `p`? -/
def isArrOf (p : Value → Bool) : Value → Bool
  | Value.arr l => l.all p
  | _ => false

/-- A required schema field: it must be present and satisfy `p`. -/
def reqF (d : Doc) (k : String) (p : Value → Bool) : Bool :=
  match getField d k with
  | some v => p v
  | none => false

/-- A schema field with a non-null default: it may be absent, but when
present must satisfy `p` (so an explicit null is rejected). -/
def defF (d : Doc) (k : String) (p : Value → Bool) : Bool :=
  match getField d k with
  | some v => p v
  | none => true

/-- An optional schema field: absent and null are accepted, any other
value must satisfy `p`. -/
def optF (d : Doc) (k : String) (p : Value → Bool) : Bool :=
  match getField d k with
  | some Value.null => true
  | some v => p v
  | none => true

/-- Validation of a `Variant` (schemas.py): strict typing of each field;
the numeric coercions pydantic additionally performs on strings are not
modelled. -/
def validVariant : Value → Bool
  | Value.obj f =>
    reqF f "name" isStrV && reqF f "engine" isStrV && reqF f "transmission" isStrV &&
    optF f "drivetrain" isStrV && reqF f "price" isNonnegNumV
  | _ => false

/-- Validation of a `PriceRange` (schemas.py). -/
def validPriceRange : Value → Bool
  | Value.obj f =>
    reqF f "min" isNonnegNumV && reqF f "max" isNonnegNumV && defF f "currency" isStrV
  | _ => false

/-- Validation of a `MediaAsset` (schemas.py). -/
def validMediaAsset : Value → Bool
  | Value.obj f =>
    reqF f "url" isStrV && defF f "type" isStrV && optF f "title" isStrV &&
    optF f "thumbnail" isStrV
  | _ => false

/-- Validation of a `Spec` (schemas.py). -/
def validSpec : Value → Bool
  | Value.obj f =>
    optF f "dimensions" isObjV && optF f "engine" isObjV && optF f "performance" isObjV &&
    optF f "safety" (isArrOf isStrV) && optF f "features" (isArrOf isStrV)
  | _ => false

/-- Validation of a `CarModel` document (schemas.py); unknown keys are
ignored, mirroring pydantic's default behaviour. -/
def validCarModel (d : Doc) : Bool :=
  reqF d "name" isStrV && reqF d "slug" isStrV && reqF d "body_type" isStrV &&
  reqF d "fuel_type" isStrV && optF d "hero_image" isStrV &&
  defF d "gallery" (isArrOf validMediaAsset) && optF d "brochure_url" isStrV &&
  optF d "summary" isStrV && optF d "specs" validSpec &&
  optF d "price_range" validPriceRange && defF d "variants" (isArrOf validVariant) &&
  defF d "colors" (isArrOf isStrV) && defF d "wheels" (isArrOf isStrV) &&
  defF d "interiors" (isArrOf isStrV) && defF d "packages" (isArrOf isStrV) &&
  defF d "accessories" (isArrOf isStrV) && defF d "related_slugs" (isArrOf isStrV) &&
  defF d "published" isBoolV

/-- Validation of a `Promotion` document (schemas.py). -/
def validPromotion (d : Doc) : Bool :=
  reqF d "title" isStrV && optF d "description" isStrV && optF d "image" isStrV &&
  optF d "badge" isStrV && optF d "start_date" isStrV && optF d "end_date" isStrV &&
  optF d "link" isStrV && defF d "active" isBoolV

/-- Validation of a `Dealer` document (schemas.py).  Note the schema has
no published or active flag at all. -/
def validDealer (d : Doc) : Bool :=
  reqF d "name" isStrV && reqF d "city" isStrV && optF d "state" isStrV &&
  optF d "zip" isStrV && optF d "address" isStrV && optF d "phone" isStrV &&
  optF d "email" (fun v => match v with | Value.str s => isValidEmail s | _ => false) &&
  optF d "hours" isObjV && optF d "lat" isNumV && optF d "lng" isNumV

/-- Validation of a `Lead` body (schemas.py). -/
def validLead (d : Doc) : Bool :=
  reqF d "lead_type" isStrV && reqF d "name" isStrV &&
  reqF d "email" (fun v => match v with | Value.str s => isValidEmail s | _ => false) &&
  optF d "phone" isStrV && optF d "city" isStrV && optF d "message" isStrV &&
  optF d "model_slug" isStrV && optF d "configuration" isObjV && optF d "source" isStrV

/-- The application's error responses. -/
inductive ApiError where
  | notFound (detail : String)
  | serverError (detail : String)
  | unprocessable
deriving DecidableEq

/-- Response of `POST /seed`. -/
structure SeedResult where
  inserted : Nat
deriving DecidableEq

/-- Response of `POST /leads`. -/
structure LeadResult where
  id : String
  status : String
deriving DecidableEq

/-- Response of `POST /config/price`. -/
structure PriceResp where
  base : Int
  extras : Int
  total : Int
deriving DecidableEq

/-- Request body of `POST /config/price` (main.py `ConfigSelection`). -/
structure ConfigSelection where
  model_slug : String
  variant : Option String
  color : Option String
  wheels : Option String
  interior : Option String
  packages : Option (List String)
  accessories : Option (List String)

/-- Did the endpoint produce a success response? -/
def isOkB {α : Type} : Except ApiError α → Bool
  | Except.ok _ => true
  | Except.error _ => false

/-- The seeded demo model "Aurora Flux" (main.py, seed_demo_content), as
the dump of the `CarModel` constructor call, schema defaults included. -/
def auroraFluxDoc : Doc :=
  [("name", Value.str "Aurora Flux"), ("slug", Value.str "aurora-flux"),
   ("body_type", Value.str "Sedan"), ("fuel_type", Value.str "EV"),
   ("hero_image", Value.str "/assets/flux-hero.jpg"),
   ("gallery", Value.arr [Value.obj [("url", Value.str "/assets/flux-1.jpg"),
     ("type", Value.str "image"), ("title", Value.null), ("thumbnail", Value.null)]]),
   ("brochure_url", Value.null),
   ("summary", Value.str "A sleek electric sedan blending performance and efficiency."),
   ("specs", Value.null),
   ("price_range", Value.obj [("min", Value.num 39999), ("max", Value.num 55999),
     ("currency", Value.str "USD")]),
   ("variants", Value.arr [
     Value.obj [("name", Value.str "Standard"), ("engine", Value.str "Dual Motor"),
       ("transmission", Value.str "Single Speed"), ("drivetrain", Value.str "AWD"),
       ("price", Value.num 39999)],
     Value.obj [("name", Value.str "Performance"), ("engine", Value.str "Tri-Motor"),
       ("transmission", Value.str "Single Speed"), ("drivetrain", Value.str "AWD"),
       ("price", Value.num 52999)]]),
   ("colors", Value.arr [Value.str "Onyx Black", Value.str "Glacier White",
     Value.str "Crimson Red"]),
   ("wheels", Value.arr [Value.str "18\" Aero", Value.str "20\" Sport"]),
   ("interiors", Value.arr [Value.str "Black Tech", Value.str "Stone Grey"]),
   ("packages", Value.arr [Value.str "Pilot Assist", Value.str "Premium Sound"]),
   ("accessories", Value.arr [Value.str "Roof Rack", Value.str "All-Weather Mats"]),
   ("related_slugs", Value.arr []),
   ("published", Value.bool true)]

/-- The seeded demo model "Aurora Trail" (main.py, seed_demo_content). -/
def auroraTrailDoc : Doc :=
  [("name", Value.str "Aurora Trail"), ("slug", Value.str "aurora-trail"),
   ("body_type", Value.str "SUV"), ("fuel_type", Value.str "Hybrid"),
   ("hero_image", Value.str "/assets/trail-hero.jpg"),
   ("gallery", Value.arr [Value.obj [("url", Value.str "/assets/trail-1.jpg"),
     ("type", Value.str "image"), ("title", Value.null), ("thumbnail", Value.null)]]),
   ("brochure_url", Value.null),
   ("summary", Value.str "Versatile hybrid SUV ready for the city or the wild."),
   ("specs", Value.null),
   ("price_range", Value.obj [("min", Value.num 32999), ("max", Value.num 44999),
     ("currency", Value.str "USD")]),
   ("variants", Value.arr [
     Value.obj [("name", Value.str "Eco"), ("engine", Value.str "1.6L Hybrid"),
       ("transmission", Value.str "CVT"), ("drivetrain", Value.str "FWD"),
       ("price", Value.num 32999)],
     Value.obj [("name", Value.str "Adventure"), ("engine", Value.str "2.0L Hybrid"),
       ("transmission", Value.str "CVT"), ("drivetrain", Value.str "AWD"),
       ("price", Value.num 41999)]]),
   ("colors", Value.arr [Value.str "Forest Green", Value.str "Canyon Sand",
     Value.str "Glacier White"]),
   ("wheels", Value.arr [Value.str "17\" Terrain", Value.str "19\" Premium"]),
   ("interiors", Value.arr [Value.str "Charcoal", Value.str "Saddle"]),
   ("packages", Value.arr [Value.str "Tow Pack", Value.str "Terrain Pro"]),
   ("accessories", Value.arr [Value.str "Cargo Liner", Value.str "Cross Bars"]),
   ("related_slugs", Value.arr [Value.str "aurora-flux"]),
   ("published", Value.bool true)]

/-- The first seeded promotion (main.py, seed_demo_content). -/
def promoAprDoc : Doc :=
  [("title", Value.str "0.99% APR for 36 months"),
   ("description", Value.str "Limited-time financing on select models."),
   ("image", Value.null), ("badge", Value.null), ("start_date", Value.null),
   ("end_date", Value.null), ("link", Value.null), ("active", Value.bool true)]

/-- The second seeded promotion (main.py, seed_demo_content). -/
def promoYearEndDoc : Doc :=
  [("title", Value.str "Year-End Event"),
   ("description", Value.str "Save up to $2,500 on in-stock vehicles."),
   ("image", Value.null), ("badge", Value.null), ("start_date", Value.null),
   ("end_date", Value.null), ("link", Value.null), ("active", Value.bool true)]

/-- `POST /seed` (main.py, seed_demo_content): insert the demo models when
the model collection is empty, then the demo promotions when the promotion
collection is empty, and report the number of inserted documents. -/
def seed_demo_content (dbOpt : Option DB) : Except ApiError SeedResult × Option DB :=
  match dbOpt with
  | none => (Except.error (ApiError.serverError "Database not configured"), none)
  | some db =>
    let existing_models := count_documents db "carmodel" []
    let step1 : Nat × DB :=
      if existing_models = 0 then
        let r1 := create_document db "carmodel" auroraFluxDoc
        let r2 := create_document r1.2 "carmodel" auroraTrailDoc
        (2, r2.2)
      else (0, db)
    let existing_promos := count_documents step1.2 "promotion" []
    let step2 : Nat × DB :=
      if existing_promos = 0 then
        let r1 := create_document step1.2 "promotion" promoAprDoc
        let r2 := create_document r1.2 "promotion" promoYearEndDoc
        (2, r2.2)
      else (0, step1.2)
    (Except.ok ⟨step1.1 + step2.1⟩, some step2.2)

/-- The shared shape of the three list endpoints: fetch the matching
documents, strip identifiers from each, parse each against the schema (a
parse failure anywhere fails the whole response), and return the list. -/
def serveList (db : DB) (coll : String) (q : Query) (valid : Doc → Bool) :
    Except ApiError (List Doc) :=
  let docs := get_documents db coll q none
  let popped := docs.map popId
  if popped.all valid then Except.ok popped
  else Except.error (ApiError.serverError "ValidationError")

/-- The `filter_query` built by list_models (main.py lines 128-132):
`published=True` always, plus each truthy optional parameter. -/
def modelsQuery (body_type fuel_type : Option String) : Query :=
  ("published", Cond.eqTrue) ::
  ((if optStrTruthy body_type then [("body_type", Cond.eqStr (body_type.getD ""))] else [])
    ++ (if optStrTruthy fuel_type then [("fuel_type", Cond.eqStr (fuel_type.getD ""))] else []))

/-- `GET /models` (main.py, list_models). -/
def list_models (dbOpt : Option DB) (body_type fuel_type : Option String) :
    Except ApiError (List Doc) :=
  match dbOpt with
  | none => Except.ok []
  | some db => serveList db "carmodel" (modelsQuery body_type fuel_type) validCarModel

/-- `GET /models/{slug}` (main.py, get_model). -/
def get_model (dbOpt : Option DB) (slug : String) : Except ApiError Doc :=
  match dbOpt with
  | none => Except.error (ApiError.notFound "Not found")
  | some db =>
    match get_documents db "carmodel"
        [("slug", Cond.eqStr slug), ("published", Cond.eqTrue)] (some 1) with
    | [] => Except.error (ApiError.notFound "Model not found")
    | d :: _ =>
      let d' := popId d
      if validCarModel d' then Except.ok d'
      else Except.error (ApiError.serverError "ValidationError")

/-- `GET /promotions` (main.py, get_promotions). -/
def get_promotions (dbOpt : Option DB) : Except ApiError (List Doc) :=
  match dbOpt with
  | none => Except.ok []
  | some db => serveList db "promotion" [("active", Cond.eqTrue)] validPromotion

/-- The filter built by list_dealers (main.py lines 165-169): it starts
empty and never constrains a published or active flag; a truthy city adds
a case-insensitive regex, a truthy zip an exact match. -/
def dealersQuery (city zip : Option String) : Query :=
  (if optStrTruthy city then [("city", Cond.regexI (city.getD ""))] else [])
  ++ (if optStrTruthy zip then [("zip", Cond.eqStr (zip.getD ""))] else [])

/-- `GET /dealers` (main.py, list_dealers). -/
def list_dealers (dbOpt : Option DB) (city zip : Option String) :
    Except ApiError (List Doc) :=
  match dbOpt with
  | none => Except.ok []
  | some db => serveList db "dealer" (dealersQuery city zip) validDealer

/-- The dump of a validated `Lead` body: schema fields in declaration
order, defaults materialized. -/
def leadDump (b : Doc) : Doc :=
  [("lead_type", (getField b "lead_type").getD Value.null),
   ("name", (getField b "name").getD Value.null),
   ("email", (getField b "email").getD Value.null),
   ("phone", (getField b "phone").getD Value.null),
   ("city", (getField b "city").getD Value.null),
   ("message", (getField b "message").getD Value.null),
   ("model_slug", (getField b "model_slug").getD Value.null),
   ("configuration", (getField b "configuration").getD (Value.obj [])),
   ("source", (getField b "source").getD Value.null)]

/-- `POST /leads` (main.py, create_lead): the framework validates the body
against the `Lead` schema before the handler runs; an invalid body is
rejected with a validation error and storage is never called. -/
def create_lead (dbOpt : Option DB) (body : Doc) :
    Except ApiError LeadResult × Option DB :=
  if validLead body then
    match dbOpt with
    | none => (Except.error (ApiError.serverError "Database not configured"), none)
    | some db =>
      let r := create_document db "lead" (leadDump body)
      (Except.ok ⟨r.1, "received"⟩, some r.2)
  else (Except.error ApiError.unprocessable, dbOpt)

/-- Python `float(x)` with the handler's `.get(key, 0)` default: numbers
and booleans convert, a missing field gives 0, anything else raises (the
conversion of numeric strings is not modelled). -/
def pyFloatD0 : Option Value → Except ApiError Int
  | none => Except.ok 0
  | some (Value.num n) => Except.ok n
  | some (Value.bool b) => Except.ok (if b then 1 else 0)
  | some _ => Except.error (ApiError.serverError "TypeError")

/-- Iterating `model.get("variants", [])`: a missing field iterates as the
empty list, an array iterates its elements, an empty string iterates
nothing, and any other value raises. -/
def variantsVal : Option Value → Except ApiError (List Value)
  | none => Except.ok []
  | some (Value.arr l) => Except.ok l
  | some (Value.str s) =>
    if s = "" then Except.ok [] else Except.error (ApiError.serverError "TypeError")
  | some _ => Except.error (ApiError.serverError "TypeError")

/-- The variant scan of calculate_price: the first variant whose name
equals the selected name contributes its price (with default 0) and the
loop breaks; a non-dict element raises before it can be inspected. -/
def scanVariants (target : String) : List Value → Except ApiError Int
  | [] => Except.ok 0
  | Value.obj f :: rest =>
    if (match getField f "name" with
        | some (Value.str n) => n == target
        | _ => false) then
      pyFloatD0 (getField f "price")
    else scanVariants target rest
  | _ :: _ => Except.error (ApiError.serverError "AttributeError")

/-- The price-range fallback (main.py lines 209-210): when the model has
a truthy price range, read its minimum with default 0; the truthiness
test keeps a falsy value at base 0. -/
def fallbackBase (model : Doc) : Except ApiError Int :=
  if valueTruthyOpt (getField model "price_range") then
    match getField model "price_range" with
    | some (Value.obj pr) => pyFloatD0 (getField pr "min")
    | _ => Except.error (ApiError.serverError "TypeError")
  else Except.ok 0

/-- The base-price computation of `POST /config/price` (main.py,
calculate_price, lines 202-210), on the raw model document.  A base of 0
after the variant scan falls through to the price-range fallback. -/
def computeBase (model : Doc) (sel : ConfigSelection) : Except ApiError Int :=
  match variantsVal (getField model "variants") with
  | Except.error e => Except.error e
  | Except.ok vs =>
    match (if optStrTruthy sel.variant then scanVariants (sel.variant.getD "") vs
           else Except.ok 0) with
    | Except.error e => Except.error e
    | Except.ok base0 =>
      if base0 = 0 then fallbackBase model
      else Except.ok base0

/-- The option-surcharge computation of `POST /config/price` (main.py,
calculate_price, lines 212-223). -/
def computeExtras (sel : ConfigSelection) : Int :=
  (if optStrTruthy sel.color then
    (if strContainsSub (sel.color.getD "") "Pearl" || strContainsSub (sel.color.getD "") "Metallic"
     then 500 else 0) else 0)
  + (if optStrTruthy sel.wheels then
    (if strContainsSub (sel.wheels.getD "") "20" || strContainsSub (sel.wheels.getD "") "19"
     then 1200 else 0) else 0)
  + (if optStrTruthy sel.interior then
    (if strContainsSub (sel.interior.getD "") "Leather" then 800 else 0) else 0)
  + (if optListTruthy sel.packages then 1500 * ((sel.packages.getD []).length : Int) else 0)
  + (if optListTruthy sel.accessories then 200 * ((sel.accessories.getD []).length : Int) else 0)

/-- `POST /config/price` (main.py, calculate_price): look the model up by
slug only, then price the selection. -/
def calculate_price (dbOpt : Option DB) (sel : ConfigSelection) :
    Except ApiError PriceResp :=
  match dbOpt with
  | none => Except.error (ApiError.serverError "Database not configured")
  | some db =>
    match get_documents db "carmodel" [("slug", Cond.eqStr sel.model_slug)] (some 1) with
    | [] => Except.error (ApiError.notFound "Model not found")
    | model :: _ =>
      match computeBase model sel with
      | Except.error e => Except.error e
      | Except.ok base =>
        let extras := computeExtras sel
        Except.ok ⟨base, extras, base + extras⟩

/-- The surcharge total exactly as the specification words it: five
independent summands, the package and accessory ones scaled by count. -/
def extrasSpec (sel : ConfigSelection) : Int :=
  (match sel.color with
   | some c => if strContainsSub c "Pearl" || strContainsSub c "Metallic" then 500 else 0
   | none => 0)
  + (match sel.wheels with
   | some w => if strContainsSub w "20" || strContainsSub w "19" then 1200 else 0
   | none => 0)
  + (match sel.interior with
   | some i => if strContainsSub i "Leather" then 800 else 0
   | none => 0)
  + 1500 * (((sel.packages.getD []).length : Int))
  + 200 * (((sel.accessories.getD []).length : Int))

/-- The variants of a model document, read as the claim reads them. -/
def variantsOf (model : Doc) : List Value :=
  match getField model "variants" with
  | some (Value.arr l) => l
  | _ => []

/-- The first variant of the list bearing the given name. -/
def firstVariantNamed (target : String) : List Value → Option Value
  | [] => none
  | v :: rest =>
    if (match v with
        | Value.obj f =>
          (match getField f "name" with
           | some (Value.str n) => n == target
           | _ => false)
        | _ => false) then some v
    else firstVariantNamed target rest

/-- The numeric value a successful Python float() read yields (default 0;
booleans convert the way Python float() converts them). -/
def pyFloatVal (ov : Option Value) : Int :=
  match ov with
  | some (Value.num n) => n
  | some (Value.bool b) => if b then 1 else 0
  | _ => 0

/-- The price of a variant as the handler reads it. -/
def variantPriceQ : Value → Int
  | Value.obj f => pyFloatVal (getField f "price")
  | _ => 0

/-- The model's minimum advertised price, when a truthy price range is
present, else 0. -/
def minAdvertised (model : Doc) : Int :=
  if valueTruthyOpt (getField model "price_range") then
    match getField model "price_range" with
    | some (Value.obj pr) => pyFloatVal (getField pr "min")
    | _ => 0
  else 0

/-- The base price as the amended claim words it: a given variant name
matching a variant with nonzero price fixes the base; otherwise the base
falls back to the minimum advertised price when present, else zero. -/
def specBase (model : Doc) (sel : ConfigSelection) : Int :=
  match (if optStrTruthy sel.variant then
          firstVariantNamed (sel.variant.getD "") (variantsOf model)
         else none) with
  | some v => if variantPriceQ v = 0 then minAdvertised model else variantPriceQ v
  | none => minAdvertised model

/-- The dealer-side predicate of claim C6: the city field contains the
parameter as a case-insensitive substring. -/
def dealerCityMatches (d : Doc) (c : String) : Bool :=
  match getField d "city" with
  | some (Value.str s) => containsInsens s c
  | _ => false

/-- The dealer-side zip condition: exact match when a truthy zip
parameter is given. -/
def dealerZipMatches (d : Doc) (z : Option String) : Bool :=
  if optStrTruthy z then
    match getField d "zip" with
    | some (Value.str s) => s == z.getD ""
    | _ => false
  else true

/-- The database state right after seeding an empty database. -/
def seedState : Option DB := (seed_demo_content (some emptyDB)).2

/-- The same state, projected out of the option. -/
def seedStateD : DB := seedState.getD emptyDB

/-- The selection of the specification's worked pricing example. -/
def auroraPerfSel : ConfigSelection :=
  ⟨"aurora-flux", some "Performance", some "Glacier White", some "20\" Sport",
   none, none, none⟩

/-- A minimal published car model with slug "aurora-x". -/
def c1Pub : Doc :=
  [("name", Value.str "X One"), ("slug", Value.str "aurora-x"),
   ("body_type", Value.str "Sedan"), ("fuel_type", Value.str "EV"),
   ("published", Value.bool true)]

/-- A minimal unpublished car model sharing the slug "aurora-x". -/
def c1Unpub : Doc :=
  [("name", Value.str "X One Prototype"), ("slug", Value.str "aurora-x"),
   ("body_type", Value.str "Sedan"), ("fuel_type", Value.str "EV"),
   ("published", Value.bool false)]

/-- A state storing a published and an unpublished model with one slug. -/
def c1db : DB := ⟨[c1Pub, c1Unpub], [], [], [], 10⟩

/-- A model whose only variant has the fixed price 0 and whose minimum
advertised price is 100. -/
def zeroCarDoc : Doc :=
  [("name", Value.str "Zero Car"), ("slug", Value.str "zero-car"),
   ("body_type", Value.str "Sedan"), ("fuel_type", Value.str "EV"),
   ("price_range", Value.obj [("min", Value.num 100), ("max", Value.num 200),
     ("currency", Value.str "USD")]),
   ("variants", Value.arr [Value.obj [("name", Value.str "Promo"),
     ("engine", Value.str "E"), ("transmission", Value.str "T"),
     ("price", Value.num 0)]]),
   ("published", Value.bool true)]

/-- A state storing only the zero-priced-variant model. -/
def c2db : DB := ⟨[zeroCarDoc], [], [], [], 10⟩

/-- The price request selecting the zero-priced variant by name. -/
def zeroPromoSel : ConfigSelection :=
  ⟨"zero-car", some "Promo", none, none, none, none, none⟩

/-- A dealer document carrying explicit published/active flags set to
false (the Dealer schema itself has no such fields; pydantic ignores the
extra keys). -/
def flaggedDealerDoc : Doc :=
  [("name", Value.str "Shadow Motors"), ("city", Value.str "Nowhere"),
   ("published", Value.bool false), ("active", Value.bool false)]

/-- A state whose dealer collection holds only the flagged dealer. -/
def c4db : DB := ⟨[], [], [flaggedDealerDoc], [], 10⟩

/-- A dealer located in Springfield. -/
def springDealerDoc : Doc :=
  [("name", Value.str "Aurora of Springfield"), ("city", Value.str "Springfield"),
   ("zip", Value.str "62701")]

/-- A state whose dealer collection holds only the Springfield dealer. -/
def springDB : DB := ⟨[], [], [springDealerDoc], [], 10⟩

/-- An unpublished car model with slug "aurora-y" and a price range. -/
def c9Unpub : Doc :=
  [("name", Value.str "Y Prototype"), ("slug", Value.str "aurora-y"),
   ("body_type", Value.str "SUV"), ("fuel_type", Value.str "EV"),
   ("price_range", Value.obj [("min", Value.num 19999), ("max", Value.num 29999),
     ("currency", Value.str "USD")]),
   ("published", Value.bool false)]

/-- A published car model sharing the slug "aurora-y". -/
def c9Pub : Doc :=
  [("name", Value.str "Y One"), ("slug", Value.str "aurora-y"),
   ("body_type", Value.str "SUV"), ("fuel_type", Value.str "EV"),
   ("published", Value.bool true)]

/-- A state storing the unpublished "aurora-y" model first, then the
published one. -/
def c9db : DB := ⟨[c9Unpub, c9Pub], [], [], [], 10⟩

/-- The price request for slug "aurora-y" with no options. -/
def c9Sel : ConfigSelection := ⟨"aurora-y", none, none, none, none, none, none⟩

/-- A lone unpublished model with slug "solo-ev". -/
def soloUnpubDoc : Doc :=
  [("name", Value.str "Solo EV"), ("slug", Value.str "solo-ev"),
   ("body_type", Value.str "Hatchback"), ("fuel_type", Value.str "EV"),
   ("price_range", Value.obj [("min", Value.num 21999), ("max", Value.num 25999),
     ("currency", Value.str "USD")]),
   ("published", Value.bool false)]

/-- A state whose model collection holds only the lone unpublished model. -/
def soloDB : DB := ⟨[soloUnpubDoc], [], [], [], 10⟩

/-- The price request for slug "solo-ev" with no options. -/
def soloSel : ConfigSelection := ⟨"solo-ev", none, none, none, none, none, none⟩

/-- A lead body whose email field is not a valid email address. -/
def leadBadBody : Doc :=
  [("lead_type", Value.str "contact"), ("name", Value.str "Ada"),
   ("email", Value.str "not-an-email")]

end AuroraAPI

deriving instance DecidableEq for Except
namespace AuroraAPI

/-- Popping the identifier leaves every other field untouched. -/
theorem getField_popId_ne (d : Doc) {k : String} (hk : ¬ k = "_id") :
    getField (popId d) k = getField d k := by
  induction d with
  | nil => rfl
  | cons kv rest ih =>
    obtain ⟨k', v⟩ := kv
    by_cases h1 : k' = "_id"
    · subst h1
      have : ¬ ("_id" = k) := fun h => hk h.symm
      simp only [popId, if_pos rfl, getField, if_neg this]
      exact ih
    · simp only [popId, if_neg h1, getField]
      by_cases h2 : k' = k
      · simp [h2]
      · simp only [if_neg h2]
        exact ih

/-- The identifier field is gone after popping it. -/
theorem getField_popId_id (d : Doc) : getField (popId d) "_id" = none := by
  induction d with
  | nil => rfl
  | cons kv rest ih =>
    obtain ⟨k', v⟩ := kv
    by_cases h1 : k' = "_id"
    · simp only [popId, if_pos h1]; exact ih
    · simp only [popId, if_neg h1, getField, if_neg h1]; exact ih

/-- Inversion of the validate-then-respond gate. -/
theorem okGate {α : Type} {b : Bool} {x r : α} {e : ApiError}
    (h : (if b then Except.ok x else Except.error e) = Except.ok r) :
    b = true ∧ x = r := by
  cases b with
  | false => exact Except.noConfusion h
  | true => exact ⟨rfl, by injection h⟩

/-- A satisfied equality-with-True condition pins the field. -/
theorem matchCond_eqTrue_inv {d : Doc} {k : String}
    (h : matchCond d (k, Cond.eqTrue) = true) :
    getField d k = some (Value.bool true) := by
  simp only [matchCond] at h
  split at h
  · next b heq => rw [heq, h]
  · simp at h

/-- A satisfied equality-with-string condition pins the field. -/
theorem matchCond_eqStr_inv {d : Doc} {k s : String}
    (h : matchCond d (k, Cond.eqStr s) = true) :
    getField d k = some (Value.str s) := by
  simp only [matchCond] at h
  split at h
  · next t heq => rw [heq, eq_of_beq h]
  · simp at h

/-- Unfolding one condition of a filter. -/
theorem matchesQ_cons {d : Doc} {c : String × Cond} {q : Query} :
    matchesQ d (c :: q) = (matchCond d c && matchesQ d q) := by
  simp [matchesQ, List.all_cons]

/-- Inversion of a successful list endpoint. -/
theorem serveList_ok {db : DB} {coll : String} {q : Query} {valid : Doc → Bool}
    {r : List Doc} (h : serveList db coll q valid = Except.ok r) :
    r = ((collOf db coll).filter (fun d => matchesQ d q)).map popId ∧
    r.all valid = true := by
  unfold serveList get_documents at h
  obtain ⟨hall, hr⟩ := okGate h
  exact ⟨hr.symm, hr ▸ hall⟩

/-- Every element of a successful list response is a popped stored
document matching the filter. -/
theorem serveList_mem {db : DB} {coll : String} {q : Query} {valid : Doc → Bool}
    {r : List Doc} (h : serveList db coll q valid = Except.ok r)
    {d : Doc} (hd : d ∈ r) :
    ∃ x, x ∈ collOf db coll ∧ matchesQ x q = true ∧ d = popId x := by
  obtain ⟨hr, _⟩ := serveList_ok h
  rw [hr] at hd
  obtain ⟨x, hx, hxd⟩ := List.mem_map.mp hd
  obtain ⟨hxm, hxq⟩ := List.mem_filter.mp hx
  exact ⟨x, hxm, hxq, hxd.symm⟩

/-- The head of a non-empty fetch is a stored, matching document. -/
theorem get_documents_cons {db : DB} {coll : String} {q : Query}
    {lim : Option Nat} {d0 : Doc} {rest : List Doc}
    (h : get_documents db coll q lim = d0 :: rest) :
    d0 ∈ collOf db coll ∧ matchesQ d0 q = true := by
  cases lim with
  | none =>
    simp only [get_documents] at h
    have : d0 ∈ (collOf db coll).filter (fun d => matchesQ d q) :=
      h ▸ List.mem_cons_self d0 rest
    exact ⟨(List.mem_filter.mp this).1, (List.mem_filter.mp this).2⟩
  | some n =>
    simp only [get_documents] at h
    have hmem : d0 ∈ ((collOf db coll).filter (fun d => matchesQ d q)).take n :=
      h ▸ List.mem_cons_self d0 rest
    have : d0 ∈ (collOf db coll).filter (fun d => matchesQ d q) :=
      List.take_subset n _ hmem
    exact ⟨(List.mem_filter.mp this).1, (List.mem_filter.mp this).2⟩

/-- When no stored document matches, the fetch is empty. -/
theorem get_documents_nil {db : DB} {coll : String} {q : Query}
    {lim : Option Nat} (h : ∀ d ∈ collOf db coll, matchesQ d q = false) :
    get_documents db coll q lim = [] := by
  have hf : (collOf db coll).filter (fun d => matchesQ d q) = [] :=
    List.filter_eq_nil_iff.mpr (fun d hd => by rw [h d hd]; exact Bool.false_ne_true)
  cases lim with
  | none => simp only [get_documents]; exact hf
  | some n => simp only [get_documents]; rw [hf]; exact List.take_nil

/-- When no stored model both bears the slug and is published, the
single-model endpoint answers 404 (main.py get_model, line 147). -/
theorem get_model_404 (db : DB) (slug : String)
    (h : ∀ d ∈ db.carmodel, ¬(getField d "slug" = some (Value.str slug) ∧
         getField d "published" = some (Value.bool true))) :
    get_model (some db) slug = Except.error (ApiError.notFound "Model not found") := by
  have hempty : get_documents db "carmodel"
      [("slug", Cond.eqStr slug), ("published", Cond.eqTrue)] (some 1) = [] := by
    apply get_documents_nil
    intro d hd
    by_contra hne
    have hq : matchesQ d [("slug", Cond.eqStr slug), ("published", Cond.eqTrue)] = true := by
      cases hv : matchesQ d [("slug", Cond.eqStr slug), ("published", Cond.eqTrue)] with
      | true => rfl
      | false => exact absurd hv hne
    rw [matchesQ_cons] at hq
    have h1 := Bool.and_elim_left hq
    have h2 := Bool.and_elim_right hq
    rw [matchesQ_cons] at h2
    have h2' := Bool.and_elim_left h2
    exact h d hd ⟨matchCond_eqStr_inv h1, matchCond_eqTrue_inv h2'⟩
  simp only [get_model]
  rw [hempty]

end AuroraAPI
namespace AuroraAPI

/-- On a list of schema-valid variants the scan never raises. -/
theorem scanVariants_ok {vs : List Value} (h : vs.all validVariant = true)
    (t : String) : ∃ p, scanVariants t vs = Except.ok p := by
  induction vs with
  | nil => exact ⟨0, rfl⟩
  | cons v rest ih =>
    rw [List.all_cons] at h
    have hv := Bool.and_elim_left h
    have hrest := Bool.and_elim_right h
    cases v with
    | obj f =>
      simp only [validVariant] at hv
      have hprice : reqF f "price" isNonnegNumV = true := by
        simp only [Bool.and_eq_true] at hv
        tauto
      simp only [scanVariants]
      split
      · simp only [reqF] at hprice
        cases hp : getField f "price" with
        | none => rw [hp] at hprice; exact absurd hprice (by simp)
        | some pv =>
          rw [hp] at hprice
          cases pv with
          | num n => exact ⟨n, rfl⟩
          | null => exact absurd hprice (by simp [isNonnegNumV])
          | bool b => exact absurd hprice (by simp [isNonnegNumV])
          | str s => exact absurd hprice (by simp [isNonnegNumV])
          | arr l => exact absurd hprice (by simp [isNonnegNumV])
          | obj g => exact absurd hprice (by simp [isNonnegNumV])
      · exact ih hrest
    | null => exact absurd hv (by simp [validVariant])
    | bool b => exact absurd hv (by simp [validVariant])
    | num n => exact absurd hv (by simp [validVariant])
    | str s => exact absurd hv (by simp [validVariant])
    | arr l => exact absurd hv (by simp [validVariant])

/-- On a model with a schema-valid (or absent) price range the fallback
never raises. -/
theorem fallbackBase_ok_of_valid {m : Doc}
    (hpr : optF m "price_range" validPriceRange = true) :
    ∃ b, fallbackBase m = Except.ok b := by
  unfold fallbackBase
  cases htr : valueTruthyOpt (getField m "price_range")
  · exact ⟨0, by simp⟩
  · simp only [if_pos rfl]
    simp only [optF] at hpr
    cases hg : getField m "price_range" with
    | none => rw [hg] at htr; exact absurd htr (by simp [valueTruthyOpt])
    | some v =>
      rw [hg] at hpr
      cases v with
      | obj pr =>
        have hmin : reqF pr "min" isNonnegNumV = true := by
          simp only [validPriceRange, Bool.and_eq_true] at hpr
          tauto
        simp only [reqF] at hmin
        cases hgm : getField pr "min" with
        | none => rw [hgm] at hmin; exact absurd hmin (by simp)
        | some mv =>
          rw [hgm] at hmin
          cases mv with
          | num n => exact ⟨n, by simp [pyFloatD0, hgm]⟩
          | null => exact absurd hmin (by simp [isNonnegNumV])
          | bool b => exact absurd hmin (by simp [isNonnegNumV])
          | str s => exact absurd hmin (by simp [isNonnegNumV])
          | arr l => exact absurd hmin (by simp [isNonnegNumV])
          | obj g => exact absurd hmin (by simp [isNonnegNumV])
      | null => rw [hg] at htr; exact absurd htr (by simp [valueTruthyOpt, valueTruthy])
      | bool b => exact absurd hpr (by simp [validPriceRange])
      | num n => exact absurd hpr (by simp [validPriceRange])
      | str s => exact absurd hpr (by simp [validPriceRange])
      | arr l => exact absurd hpr (by simp [validPriceRange])

/-- On a schema-valid model document the base computation never raises. -/
theorem computeBase_ok_of_valid {m : Doc} (h : validCarModel m = true)
    (sel : ConfigSelection) : ∃ b, computeBase m sel = Except.ok b := by
  simp only [validCarModel, Bool.and_eq_true] at h
  have hpr : optF m "price_range" validPriceRange = true := by tauto
  have hvars : defF m "variants" (isArrOf validVariant) = true := by tauto
  have hvl : ∃ vs, variantsVal (getField m "variants") = Except.ok vs ∧
      vs.all validVariant = true := by
    simp only [defF] at hvars
    cases hg : getField m "variants" with
    | none => exact ⟨[], rfl, rfl⟩
    | some v =>
      rw [hg] at hvars
      cases v with
      | arr l => exact ⟨l, rfl, hvars⟩
      | null => exact absurd hvars (by simp [isArrOf])
      | bool b => exact absurd hvars (by simp [isArrOf])
      | num n => exact absurd hvars (by simp [isArrOf])
      | str s => exact absurd hvars (by simp [isArrOf])
      | obj f => exact absurd hvars (by simp [isArrOf])
  obtain ⟨vs, hvv, hvsall⟩ := hvl
  simp only [computeBase, hvv]
  have hscan : ∃ p, (if optStrTruthy sel.variant then
      scanVariants (sel.variant.getD "") vs else Except.ok 0) = Except.ok p := by
    cases htr : optStrTruthy sel.variant
    · exact ⟨0, by simp⟩
    · obtain ⟨p, hp⟩ := scanVariants_ok hvsall (sel.variant.getD "")
      exact ⟨p, by simp [hp]⟩
  obtain ⟨p, hp⟩ := hscan
  rw [hp]
  by_cases hp0 : p = 0
  · simp only [if_pos hp0]
    exact fallbackBase_ok_of_valid hpr
  · exact ⟨p, by simp [if_neg hp0]⟩

end AuroraAPI
namespace AuroraAPI

/-- Inversion of a successful Python float() read. -/
theorem pyFloatD0_ok {ov : Option Value} {n : Int}
    (h : pyFloatD0 ov = Except.ok n) : pyFloatVal ov = n := by
  cases ov with
  | none => exact Except.ok.inj h
  | some v =>
    cases v with
    | num q => exact Except.ok.inj h
    | bool b => exact Except.ok.inj h
    | null => exact Except.noConfusion h
    | str s => exact Except.noConfusion h
    | arr l => exact Except.noConfusion h
    | obj f => exact Except.noConfusion h

/-- A successful variant scan yields the price of the first variant of
the selected name, or 0 when no variant bears the name. -/
theorem scanVariants_spec {t : String} {vs : List Value} {p : Int}
    (h : scanVariants t vs = Except.ok p) :
    (∃ v, firstVariantNamed t vs = some v ∧ variantPriceQ v = p) ∨
    (firstVariantNamed t vs = none ∧ p = 0) := by
  induction vs with
  | nil =>
    right
    exact ⟨rfl, (Except.ok.inj h).symm⟩
  | cons v rest ih =>
    cases v with
    | obj f =>
      simp only [scanVariants] at h
      by_cases hname : (match getField f "name" with
        | some (Value.str n) => n == t
        | _ => false) = true
      · rw [if_pos hname] at h
        left
        refine ⟨Value.obj f, ?_, ?_⟩
        · simp only [firstVariantNamed, if_pos hname]
        · simp only [variantPriceQ]
          exact pyFloatD0_ok h
      · rw [if_neg hname] at h
        have := ih h
        simpa only [firstVariantNamed, if_neg hname] using this
    | null => exact Except.noConfusion h
    | bool b => exact Except.noConfusion h
    | num n => exact Except.noConfusion h
    | str s => exact Except.noConfusion h
    | arr l => exact Except.noConfusion h

/-- A successful price-range fallback yields the minimum advertised
price. -/
theorem fallbackBase_spec {m : Doc} {b : Int}
    (h : fallbackBase m = Except.ok b) : b = minAdvertised m := by
  unfold fallbackBase at h
  unfold minAdvertised
  by_cases htr : valueTruthyOpt (getField m "price_range") = true
  · rw [if_pos htr] at h
    rw [if_pos htr]
    cases hg : getField m "price_range" with
    | none => rw [hg] at h; exact Except.noConfusion h
    | some v =>
      rw [hg] at h
      cases v with
      | obj pr => exact (pyFloatD0_ok h).symm
      | null => exact Except.noConfusion h
      | bool bb => exact Except.noConfusion h
      | num n => exact Except.noConfusion h
      | str s => exact Except.noConfusion h
      | arr l => exact Except.noConfusion h
  · rw [if_neg htr] at h
    rw [if_neg htr]
    exact (Except.ok.inj h).symm

/-- Relating the iterable read of the variants to the claim-side view. -/
theorem variantsVal_ok_variantsOf {m : Doc} {vs : List Value}
    (h : variantsVal (getField m "variants") = Except.ok vs) :
    variantsOf m = vs := by
  unfold variantsOf
  cases hg : getField m "variants" with
  | none => rw [hg] at h; exact Except.ok.inj h
  | some v =>
    rw [hg] at h
    cases v with
    | arr l => exact Except.ok.inj h
    | str s =>
      simp only [variantsVal] at h
      by_cases hs : s = ""
      · rw [if_pos hs] at h
        exact Except.ok.inj h
      · rw [if_neg hs] at h
        exact Except.noConfusion h
    | null => exact Except.noConfusion h
    | bool bb => exact Except.noConfusion h
    | num n => exact Except.noConfusion h
    | obj f => exact Except.noConfusion h

/-- A successful base computation agrees with the amended claim's
description of the base price. -/
theorem computeBase_spec {m : Doc} {sel : ConfigSelection} {b : Int}
    (h : computeBase m sel = Except.ok b) : b = specBase m sel := by
  unfold computeBase at h
  split at h
  · exact Except.noConfusion h
  · rename_i vs hvv
    split at h
    · exact Except.noConfusion h
    · rename_i base0 hscanif
      unfold specBase
      rw [variantsVal_ok_variantsOf hvv]
      by_cases htr : optStrTruthy sel.variant = true
      · rw [if_pos htr] at hscanif
        rw [if_pos htr]
        rcases scanVariants_spec hscanif with ⟨v, hfv, hvp⟩ | ⟨hfv, hb0⟩
        · rw [hfv]
          show b = if variantPriceQ v = 0 then minAdvertised m else variantPriceQ v
          rw [hvp]
          by_cases hb0 : base0 = 0
          · rw [if_pos hb0] at h
            rw [if_pos hb0]
            exact fallbackBase_spec h
          · rw [if_neg hb0] at h
            rw [if_neg hb0]
            exact (Except.ok.inj h).symm
        · rw [hfv]
          show b = minAdvertised m
          rw [if_pos hb0] at h
          exact fallbackBase_spec h
      · rw [if_neg htr] at hscanif
        rw [if_neg htr]
        show b = minAdvertised m
        have hb0 : base0 = 0 := (Except.ok.inj hscanif).symm
        rw [if_pos hb0] at h
        exact fallbackBase_spec h

/-- The handler's incremental surcharges equal the claim's five-summand
formula. -/
theorem computeExtras_eq_spec (sel : ConfigSelection) :
    computeExtras sel = extrasSpec sel := by
  obtain ⟨ms, v, c, w, i, pk, ac⟩ := sel
  unfold computeExtras extrasSpec
  have hc : (if optStrTruthy c then
      (if strContainsSub (c.getD "") "Pearl" || strContainsSub (c.getD "") "Metallic"
       then (500 : Int) else 0) else 0) =
      (match c with
       | some s => if strContainsSub s "Pearl" || strContainsSub s "Metallic" then (500 : Int) else 0
       | none => 0) := by
    cases c with
    | none => rfl
    | some s =>
      by_cases hs : s = ""
      · subst hs; decide
      · simp [optStrTruthy, hs, Option.getD]
  have hw : (if optStrTruthy w then
      (if strContainsSub (w.getD "") "20" || strContainsSub (w.getD "") "19"
       then (1200 : Int) else 0) else 0) =
      (match w with
       | some s => if strContainsSub s "20" || strContainsSub s "19" then (1200 : Int) else 0
       | none => 0) := by
    cases w with
    | none => rfl
    | some s =>
      by_cases hs : s = ""
      · subst hs; decide
      · simp [optStrTruthy, hs, Option.getD]
  have hi : (if optStrTruthy i then
      (if strContainsSub (i.getD "") "Leather" then (800 : Int) else 0) else 0) =
      (match i with
       | some s => if strContainsSub s "Leather" then (800 : Int) else 0
       | none => 0) := by
    cases i with
    | none => rfl
    | some s =>
      by_cases hs : s = ""
      · subst hs; decide
      · simp [optStrTruthy, hs, Option.getD]
  have hpk : (if optListTruthy pk then 1500 * ((pk.getD []).length : Int) else 0) =
      1500 * ((pk.getD []).length : Int) := by
    cases pk with
    | none => simp [optListTruthy]
    | some l =>
      cases l with
      | nil => simp [optListTruthy]
      | cons a t => simp [optListTruthy]
  have hac : (if optListTruthy ac then 200 * ((ac.getD []).length : Int) else 0) =
      200 * ((ac.getD []).length : Int) := by
    cases ac with
    | none => simp [optListTruthy]
    | some l =>
      cases l with
      | nil => simp [optListTruthy]
      | cons a t => simp [optListTruthy]
  rw [hc, hw, hi, hpk, hac]

end AuroraAPI
namespace AuroraAPI

/-- Counting with an empty filter counts the whole collection. -/
theorem count_documents_nilq (db : DB) (coll : String) :
    count_documents db coll [] = (collOf db coll).length := by
  unfold count_documents
  have hcongr : ∀ d ∈ collOf db coll,
      (fun d => matchesQ d ([] : Query)) d = (fun _ => true) d := fun d _ => rfl
  rw [List.filter_congr hcongr, List.filter_true]

/-- C5: in every state where the carmodel and promotion collections are
both non-empty (in particular right after a first successful seed), POST
/seed reports inserted=0 and leaves the database unchanged. -/
theorem claim5_theorem (db : DB) (h1 : db.carmodel.length ≠ 0)
    (h2 : db.promotion.length ≠ 0) :
    seed_demo_content (some db) = (Except.ok ⟨0⟩, some db) := by
  have hc1 : count_documents db "carmodel" [] = db.carmodel.length :=
    count_documents_nilq db "carmodel"
  have hc2 : count_documents db "promotion" [] = db.promotion.length :=
    count_documents_nilq db "promotion"
  simp only [seed_demo_content, hc1, if_neg h1]
  simp only [hc2, if_neg h2]

/-- Witness for C5: the state after seeding an empty database satisfies
the hypotheses, and a second seed inserts nothing. -/
theorem claim5_witness :
    seedStateD.carmodel.length ≠ 0 ∧ seedStateD.promotion.length ≠ 0 ∧
    seed_demo_content (some seedStateD) = (Except.ok ⟨0⟩, some seedStateD) :=
  ⟨by decide, by decide, claim5_theorem seedStateD (by decide) (by decide)⟩

/-- C10: an empty-string query parameter is treated exactly like an
absent one, on both filterable list endpoints. -/
theorem claim10_theorem :
    (∀ (dbOpt : Option DB) (ft : Option String),
      list_models dbOpt (some "") ft = list_models dbOpt none ft)
    ∧ (∀ (dbOpt : Option DB) (bt : Option String),
      list_models dbOpt bt (some "") = list_models dbOpt bt none)
    ∧ (∀ (dbOpt : Option DB) (z : Option String),
      list_dealers dbOpt (some "") z = list_dealers dbOpt none z)
    ∧ (∀ (dbOpt : Option DB) (c : Option String),
      list_dealers dbOpt c (some "") = list_dealers dbOpt c none) := by
  have he : optStrTruthy (some "") = false := by decide
  have hn : optStrTruthy none = false := rfl
  refine ⟨?_, ?_, ?_, ?_⟩
  · intro dbOpt ft
    cases dbOpt with
    | none => rfl
    | some db =>
      simp only [list_models]
      rw [show modelsQuery (some "") ft = modelsQuery none ft by
        simp [modelsQuery, he, hn]]
  · intro dbOpt bt
    cases dbOpt with
    | none => rfl
    | some db =>
      simp only [list_models]
      rw [show modelsQuery bt (some "") = modelsQuery bt none by
        simp [modelsQuery, he, hn]]
  · intro dbOpt z
    cases dbOpt with
    | none => rfl
    | some db =>
      simp only [list_dealers]
      rw [show dealersQuery (some "") z = dealersQuery none z by
        simp [dealersQuery, he, hn]]
  · intro dbOpt c
    cases dbOpt with
    | none => rfl
    | some db =>
      simp only [list_dealers]
      rw [show dealersQuery c (some "") = dealersQuery c none by
        simp [dealersQuery, he, hn]]

/-- C7: a lead body whose email field is not a valid email address is
rejected with a validation error before any storage call, leaving the
database unchanged. -/
theorem claim7_theorem (dbOpt : Option DB) (body : Doc) (e : String)
    (he : getField body "email" = some (Value.str e))
    (hbad : isValidEmail e = false) :
    create_lead dbOpt body = (Except.error ApiError.unprocessable, dbOpt) := by
  have hmail : reqF body "email"
      (fun v => match v with | Value.str s => isValidEmail s | _ => false) = false := by
    simp [reqF, he, hbad]
  have hv : validLead body = false := by
    unfold validLead
    rw [hmail]
    simp
  simp [create_lead, hv]

/-- Witness for C7: a concrete body with email "not-an-email" is
rejected and the database state is returned untouched. -/
theorem claim7_witness :
    getField leadBadBody "email" = some (Value.str "not-an-email") ∧
    isValidEmail "not-an-email" = false ∧
    create_lead (some emptyDB) leadBadBody =
      (Except.error ApiError.unprocessable, some emptyDB) :=
  ⟨rfl, by decide, claim7_theorem (some emptyDB) leadBadBody "not-an-email" rfl (by decide)⟩

/-- C8: no successful response of the four read endpoints contains a
document with the storage identifier field. -/
theorem claim8_theorem :
    (∀ (db : DB) (bt ft : Option String) (r : List Doc),
       list_models (some db) bt ft = Except.ok r →
       ∀ d ∈ r, getField d "_id" = none)
    ∧ (∀ (db : DB) (slug : String) (d : Doc),
       get_model (some db) slug = Except.ok d → getField d "_id" = none)
    ∧ (∀ (db : DB) (r : List Doc),
       get_promotions (some db) = Except.ok r → ∀ d ∈ r, getField d "_id" = none)
    ∧ (∀ (db : DB) (c z : Option String) (r : List Doc),
       list_dealers (some db) c z = Except.ok r → ∀ d ∈ r, getField d "_id" = none) := by
  refine ⟨?_, ?_, ?_, ?_⟩
  · intro db bt ft r hok d hd
    obtain ⟨x, -, -, hdx⟩ := serveList_mem hok hd
    rw [hdx]
    exact getField_popId_id x
  · intro db slug d hok
    simp only [get_model] at hok
    split at hok
    · exact Except.noConfusion hok
    · rename_i d0 rest heq
      obtain ⟨-, hd⟩ := okGate hok
      rw [← hd]
      exact getField_popId_id d0
  · intro db r hok d hd
    obtain ⟨x, -, -, hdx⟩ := serveList_mem hok hd
    rw [hdx]
    exact getField_popId_id x
  · intro db c z r hok d hd
    obtain ⟨x, -, -, hdx⟩ := serveList_mem hok hd
    rw [hdx]
    exact getField_popId_id x

/-- Witness for C8: concrete responses of the seeded state. -/
theorem claim8_witness :
    getField (popId (("_id", Value.str "0") :: auroraFluxDoc)) "_id" = none ∧
    getField (popId (("_id", Value.str "2") :: promoAprDoc)) "_id" = none := by
  constructor
  · exact claim8_theorem.1 seedStateD none none
      [popId (("_id", Value.str "0") :: auroraFluxDoc),
       popId (("_id", Value.str "1") :: auroraTrailDoc)]
      rfl (popId (("_id", Value.str "0") :: auroraFluxDoc)) (List.mem_cons_self _ _)
  · exact claim8_theorem.2.2.1 seedStateD
      [popId (("_id", Value.str "2") :: promoAprDoc),
       popId (("_id", Value.str "3") :: promoYearEndDoc)]
      rfl (popId (("_id", Value.str "2") :: promoAprDoc)) (List.mem_cons_self _ _)

/-- Counterexample for C4: a stored dealer flagged published=false and
active=false still appears in the /dealers response. -/
theorem claim4_counterexample :
    flaggedDealerDoc ∈ c4db.dealer ∧
    getField flaggedDealerDoc "published" = some (Value.bool false) ∧
    getField flaggedDealerDoc "active" = some (Value.bool false) ∧
    list_dealers (some c4db) none none = Except.ok [popId flaggedDealerDoc] :=
  ⟨List.mem_cons_self _ _, rfl, rfl, rfl⟩

/-- C4 (amended): GET /dealers applies no published/active restriction:
a successful unfiltered response returns every stored dealer document,
identifier stripped, whatever flags it carries. -/
theorem claim4_theorem (db : DB) (r : List Doc)
    (h : list_dealers (some db) none none = Except.ok r) :
    r = db.dealer.map popId := by
  have h' : serveList db "dealer" (dealersQuery none none) validDealer = Except.ok r := h
  obtain ⟨hr, -⟩ := serveList_ok h'
  rw [hr]
  have hq : dealersQuery none none = ([] : Query) := rfl
  rw [hq]
  have hcongr : ∀ d ∈ collOf db "dealer",
      (fun d => matchesQ d ([] : Query)) d = (fun _ => true) d := fun d _ => rfl
  rw [List.filter_congr hcongr, List.filter_true]
  rfl

/-- Witness for C4: the flagged dealer state satisfies the hypothesis
and the response lists every stored dealer. -/
theorem claim4_witness :
    list_dealers (some c4db) none none = Except.ok [popId flaggedDealerDoc] ∧
    [popId flaggedDealerDoc] = c4db.dealer.map popId :=
  ⟨rfl, claim4_theorem c4db [popId flaggedDealerDoc] rfl⟩

end AuroraAPI
namespace AuroraAPI

/-- Counterexample for C1: with a published and an unpublished model
sharing a slug, GET /models/:slug answers 200 with the published model,
not 404, although an unpublished model bears that slug. -/
theorem claim1_counterexample :
    c1db.carmodel = [c1Pub, c1Unpub] ∧
    getField c1Unpub "slug" = some (Value.str "aurora-x") ∧
    getField c1Unpub "published" = some (Value.bool false) ∧
    get_model (some c1db) "aurora-x" = Except.ok (popId c1Pub) ∧
    get_model (some c1db) "aurora-x" ≠
      Except.error (ApiError.notFound "Model not found") := by
  refine ⟨rfl, rfl, rfl, rfl, ?_⟩
  intro h
  rw [show get_model (some c1db) "aurora-x" = Except.ok (popId c1Pub) from rfl] at h
  exact Except.noConfusion h

/-- C1 (amended): every model in a /models response and every model
returned by /models/:slug is published; /models/:slug answers 404
whenever no published model bears the slug; and every promotion in a
/promotions response is active. -/
theorem claim1_theorem :
    (∀ (db : DB) (bt ft : Option String) (r : List Doc),
       list_models (some db) bt ft = Except.ok r →
       ∀ d ∈ r, getField d "published" = some (Value.bool true))
    ∧ (∀ (db : DB) (slug : String) (d : Doc),
       get_model (some db) slug = Except.ok d →
       getField d "published" = some (Value.bool true))
    ∧ (∀ (db : DB) (slug : String),
       (∀ d ∈ db.carmodel, ¬(getField d "slug" = some (Value.str slug) ∧
          getField d "published" = some (Value.bool true))) →
       get_model (some db) slug = Except.error (ApiError.notFound "Model not found"))
    ∧ (∀ (db : DB) (r : List Doc),
       get_promotions (some db) = Except.ok r →
       ∀ d ∈ r, getField d "active" = some (Value.bool true)) := by
  refine ⟨?_, ?_, ?_, ?_⟩
  · intro db bt ft r hok d hd
    obtain ⟨x, -, hq, hdx⟩ := serveList_mem hok hd
    simp only [modelsQuery] at hq
    rw [matchesQ_cons] at hq
    have h1 := Bool.and_elim_left hq
    rw [hdx, getField_popId_ne x (by decide)]
    exact matchCond_eqTrue_inv h1
  · intro db slug d hok
    simp only [get_model] at hok
    split at hok
    · exact Except.noConfusion hok
    · rename_i d0 rest heq
      obtain ⟨-, hd⟩ := okGate hok
      obtain ⟨-, hq⟩ := get_documents_cons heq
      rw [matchesQ_cons] at hq
      have h2 := Bool.and_elim_right hq
      rw [matchesQ_cons] at h2
      have h2' := Bool.and_elim_left h2
      rw [← hd, getField_popId_ne d0 (by decide)]
      exact matchCond_eqTrue_inv h2'
  · exact get_model_404
  · intro db r hok d hd
    obtain ⟨x, -, hq, hdx⟩ := serveList_mem hok hd
    rw [matchesQ_cons] at hq
    have h1 := Bool.and_elim_left hq
    rw [hdx, getField_popId_ne x (by decide)]
    exact matchCond_eqTrue_inv h1

/-- Witness for C1: concrete applications on the seeded state and on an
empty database. -/
theorem claim1_witness :
    getField (popId (("_id", Value.str "0") :: auroraFluxDoc)) "published" =
      some (Value.bool true) ∧
    getField (popId (("_id", Value.str "1") :: auroraTrailDoc)) "published" =
      some (Value.bool true) ∧
    get_model (some emptyDB) "ghost" =
      Except.error (ApiError.notFound "Model not found") ∧
    getField (popId (("_id", Value.str "2") :: promoAprDoc)) "active" =
      some (Value.bool true) := by
  refine ⟨?_, ?_, ?_, ?_⟩
  · exact claim1_theorem.1 seedStateD none none
      [popId (("_id", Value.str "0") :: auroraFluxDoc),
       popId (("_id", Value.str "1") :: auroraTrailDoc)]
      rfl (popId (("_id", Value.str "0") :: auroraFluxDoc)) (List.mem_cons_self _ _)
  · exact claim1_theorem.2.1 seedStateD "aurora-trail"
      (popId (("_id", Value.str "1") :: auroraTrailDoc)) rfl
  · exact claim1_theorem.2.2.1 emptyDB "ghost"
      (fun d hd => absurd hd (List.not_mem_nil d))
  · exact claim1_theorem.2.2.2 seedStateD
      [popId (("_id", Value.str "2") :: promoAprDoc),
       popId (("_id", Value.str "3") :: promoYearEndDoc)]
      rfl (popId (("_id", Value.str "2") :: promoAprDoc)) (List.mem_cons_self _ _)

/-- Counterexample for C9: with a published model sharing the slug of a
stored unpublished model, the price request succeeds (and is even priced
from the unpublished document, stored first), but GET /models/:slug
answers 200, not the 404 the claim asserts. -/
theorem claim9_counterexample :
    c9db.carmodel = [c9Unpub, c9Pub] ∧
    getField c9Unpub "published" = some (Value.bool false) ∧
    calculate_price (some c9db) c9Sel = Except.ok ⟨19999, 0, 19999⟩ ∧
    get_model (some c9db) "aurora-y" = Except.ok (popId c9Pub) ∧
    get_model (some c9db) "aurora-y" ≠
      Except.error (ApiError.notFound "Model not found") := by
  refine ⟨rfl, rfl, by decide, rfl, ?_⟩
  intro h
  rw [show get_model (some c9db) "aurora-y" = Except.ok (popId c9Pub) from rfl] at h
  exact Except.noConfusion h

/-- C9 (amended): the price endpoint does not restrict to published
models: a stored unpublished model's slug prices successfully (when the
model collection is schema-valid), while GET /models/:slug answers 404
for that slug whenever no published model shares it. -/
theorem claim9_theorem :
    (∀ (db : DB) (sel : ConfigSelection) (d : Doc),
       d ∈ db.carmodel →
       (∀ x ∈ db.carmodel, validCarModel x = true) →
       getField d "slug" = some (Value.str sel.model_slug) →
       getField d "published" = some (Value.bool false) →
       ∃ r, calculate_price (some db) sel = Except.ok r)
    ∧ (∀ (db : DB) (slug : String),
       (∀ d ∈ db.carmodel, ¬(getField d "slug" = some (Value.str slug) ∧
          getField d "published" = some (Value.bool true))) →
       get_model (some db) slug = Except.error (ApiError.notFound "Model not found")) := by
  constructor
  · intro db sel d hmem hvalid hslug hunpub
    have hmatch : matchesQ d [("slug", Cond.eqStr sel.model_slug)] = true := by
      rw [matchesQ_cons]
      have h1 : matchCond d ("slug", Cond.eqStr sel.model_slug) = true := by
        simp [matchCond, hslug]
      rw [h1]
      rfl
    have hdf : d ∈ (collOf db "carmodel").filter
        (fun x => matchesQ x [("slug", Cond.eqStr sel.model_slug)]) :=
      List.mem_filter.mpr ⟨hmem, hmatch⟩
    obtain ⟨d0, rest, hcons⟩ := List.exists_cons_of_ne_nil (List.ne_nil_of_mem hdf)
    have hget : get_documents db "carmodel"
        [("slug", Cond.eqStr sel.model_slug)] (some 1) = [d0] := by
      simp only [get_documents, hcons]
      rfl
    have hd0 : d0 ∈ collOf db "carmodel" :=
      (List.mem_filter.mp (hcons ▸ List.mem_cons_self d0 rest)).1
    obtain ⟨b, hb⟩ := computeBase_ok_of_valid (hvalid d0 hd0) sel
    refine ⟨⟨b, computeExtras sel, b + computeExtras sel⟩, ?_⟩
    simp only [calculate_price, hget, hb]
  · exact get_model_404

/-- Witness for C9: the lone unpublished "solo-ev" model prices
successfully while /models/solo-ev answers 404. -/
theorem claim9_witness :
    (∃ r, calculate_price (some soloDB) soloSel = Except.ok r) ∧
    get_model (some soloDB) "solo-ev" =
      Except.error (ApiError.notFound "Model not found") := by
  constructor
  · exact claim9_theorem.1 soloDB soloSel soloUnpubDoc (List.mem_cons_self _ _)
      (by decide) rfl rfl
  · refine claim9_theorem.2 soloDB "solo-ev" ?_
    intro d hd hcontra
    have hone : d = soloUnpubDoc := List.mem_singleton.mp hd
    subst hone
    have hfalse : getField soloUnpubDoc "published" = some (Value.bool false) := rfl
    rw [hfalse] at hcontra
    simp at hcontra

end AuroraAPI
namespace AuroraAPI

/-- Counterexample for C2: the request selects the stored variant named
"Promo", whose fixed price is 0, yet the response's base is the minimum
advertised price 100, not the variant's price. -/
theorem claim2_counterexample :
    getField zeroCarDoc "variants" =
      some (Value.arr [Value.obj [("name", Value.str "Promo"),
        ("engine", Value.str "E"), ("transmission", Value.str "T"),
        ("price", Value.num 0)]]) ∧
    calculate_price (some c2db) zeroPromoSel = Except.ok ⟨100, 0, 100⟩ ∧
    calculate_price (some c2db) zeroPromoSel ≠ Except.ok ⟨0, 0, 0⟩ := by
  refine ⟨rfl, by decide, by decide⟩

/-- C2 (amended): for a priced model (the first stored document bearing
the requested slug), the base is the matched variant's fixed price when
that price is nonzero; a zero variant price, like a missing variant
match, falls back to the minimum advertised price when a truthy price
range is present, else the base is zero. -/
theorem claim2_theorem (db : DB) (sel : ConfigSelection) (model : Doc)
    (rest : List Doc) (r : PriceResp)
    (hdocs : get_documents db "carmodel"
      [("slug", Cond.eqStr sel.model_slug)] (some 1) = model :: rest)
    (hok : calculate_price (some db) sel = Except.ok r) :
    r.base = specBase model sel := by
  simp only [calculate_price, hdocs] at hok
  cases hcb : computeBase model sel with
  | error e => rw [hcb] at hok; exact Except.noConfusion hok
  | ok b =>
    rw [hcb] at hok
    have hr : r = ⟨b, computeExtras sel, b + computeExtras sel⟩ :=
      (Except.ok.inj hok).symm
    rw [hr]
    exact computeBase_spec hcb

/-- Witness for C2: the seeded "aurora-flux" model with the
"Performance" variant selected gives base 52999, matching the amended
description. -/
theorem claim2_witness :
    get_documents seedStateD "carmodel"
      [("slug", Cond.eqStr "aurora-flux")] (some 1) =
      [("_id", Value.str "0") :: auroraFluxDoc] ∧
    calculate_price (some seedStateD) auroraPerfSel =
      Except.ok ⟨52999, 1200, 54199⟩ ∧
    (52999 : Int) = specBase (("_id", Value.str "0") :: auroraFluxDoc) auroraPerfSel := by
  refine ⟨rfl, by decide, ?_⟩
  exact claim2_theorem seedStateD auroraPerfSel
    (("_id", Value.str "0") :: auroraFluxDoc) [] ⟨52999, 1200, 54199⟩ rfl (by decide)

/-- C3: on every successful price response the extras equal the claim's
five-summand surcharge formula and the total is base plus extras; and
the specification's worked example on the seeded "aurora-flux" model
yields base 52999, extras 1200, total 54199. -/
theorem claim3_theorem :
    (∀ (dbOpt : Option DB) (sel : ConfigSelection) (r : PriceResp),
       calculate_price dbOpt sel = Except.ok r →
       r.extras = extrasSpec sel ∧ r.total = r.base + r.extras)
    ∧ calculate_price seedState auroraPerfSel = Except.ok ⟨52999, 1200, 54199⟩ := by
  constructor
  · intro dbOpt sel r hok
    cases dbOpt with
    | none => exact Except.noConfusion hok
    | some db =>
      simp only [calculate_price] at hok
      split at hok
      · exact Except.noConfusion hok
      · rename_i model rest heq
        cases hcb : computeBase model sel with
        | error e => rw [hcb] at hok; exact Except.noConfusion hok
        | ok b =>
          rw [hcb] at hok
          have hr : r = ⟨b, computeExtras sel, b + computeExtras sel⟩ :=
            (Except.ok.inj hok).symm
          rw [hr]
          exact ⟨computeExtras_eq_spec sel, rfl⟩
  · decide

/-- Witness for C3: the worked example instantiates the universal part. -/
theorem claim3_witness :
    (1200 : Int) = extrasSpec auroraPerfSel ∧
    (54199 : Int) = 52999 + (1200 : Int) :=
  claim3_theorem.1 seedState auroraPerfSel ⟨52999, 1200, 54199⟩ claim3_theorem.2

end AuroraAPI
namespace AuroraAPI

/-- An empty pattern is contained in every character list. -/
theorem hasSubAux_nil_pat (h : List Char) : hasSubAux [] h = true := by
  cases h with
  | nil => rfl
  | cons c t => rfl

/-- An empty pattern is contained in every string. -/
theorem containsInsens_empty (s : String) : containsInsens s "" = true := by
  unfold containsInsens
  exact hasSubAux_nil_pat _

/-- A schema-valid dealer has a string city. -/
theorem validDealer_city {d : Doc} (h : validDealer d = true) :
    ∃ s, getField d "city" = some (Value.str s) := by
  simp only [validDealer, Bool.and_eq_true] at h
  have hc : reqF d "city" isStrV = true := by tauto
  simp only [reqF] at hc
  cases hg : getField d "city" with
  | none => rw [hg] at hc; exact absurd hc (by simp)
  | some v =>
    rw [hg] at hc
    cases v with
    | str s => exact ⟨s, rfl⟩
    | null => exact absurd hc (by simp [isStrV])
    | bool b => exact absurd hc (by simp [isStrV])
    | num n => exact absurd hc (by simp [isStrV])
    | arr l => exact absurd hc (by simp [isStrV])
    | obj f => exact absurd hc (by simp [isStrV])

/-- The zip half of the dealer filter agrees with the claim-side zip
condition. -/
theorem matchesQ_zipPart (d : Doc) (z : Option String) :
    matchesQ d (if optStrTruthy z then [("zip", Cond.eqStr (z.getD ""))] else []) =
    dealerZipMatches d z := by
  by_cases hz : optStrTruthy z = true
  · rw [if_pos hz]
    unfold dealerZipMatches
    rw [if_pos hz]
    rw [matchesQ_cons]
    have hnil : matchesQ d ([] : Query) = true := rfl
    rw [hnil, Bool.and_true]
    rfl
  · rw [if_neg hz]
    unfold dealerZipMatches
    rw [if_neg hz]
    rfl

/-- C6: a successful /dealers response with a city parameter contains
exactly the stored dealers whose city contains the parameter as a
case-insensitive substring, intersected with the zip filter, identifiers
stripped and storage order kept; in particular city "Spring" matches the
dealer in "Springfield". -/
theorem claim6_theorem :
    (∀ (db : DB) (c : String) (z : Option String) (r : List Doc),
       list_dealers (some db) (some c) z = Except.ok r →
       r = (db.dealer.filter
             (fun d => dealerCityMatches d c && dealerZipMatches d z)).map popId)
    ∧ list_dealers (some springDB) (some "Spring") none =
        Except.ok [popId springDealerDoc] := by
  constructor
  · intro db c z r hok
    have h' : serveList db "dealer" (dealersQuery (some c) z) validDealer =
        Except.ok r := hok
    obtain ⟨hr, hall⟩ := serveList_ok h'
    have hvalid_of_match : ∀ d ∈ db.dealer,
        matchesQ d (dealersQuery (some c) z) = true →
        validDealer (popId d) = true := by
      intro d hd hq
      have hmemf : d ∈ (collOf db "dealer").filter
          (fun x => matchesQ x (dealersQuery (some c) z)) :=
        List.mem_filter.mpr ⟨hd, hq⟩
      have hmemr : popId d ∈ r := by
        rw [hr]
        exact List.mem_map_of_mem popId hmemf
      exact List.all_eq_true.mp hall _ hmemr
    rw [hr]
    show (List.filter (fun x => matchesQ x (dealersQuery (some c) z)) db.dealer).map popId =
      (db.dealer.filter (fun d => dealerCityMatches d c && dealerZipMatches d z)).map popId
    congr 1
    apply List.filter_congr
    intro d hd
    by_cases hc : c = ""
    · subst hc
      have hq0 : dealersQuery (some "") z =
          (if optStrTruthy z then [("zip", Cond.eqStr (z.getD ""))] else []) := by
        simp [dealersQuery, show optStrTruthy (some "") = false by decide]
      rw [hq0, matchesQ_zipPart]
      cases hzm : dealerZipMatches d z with
      | false => simp
      | true =>
        have hq : matchesQ d (dealersQuery (some "") z) = true := by
          rw [hq0, matchesQ_zipPart]
          exact hzm
        have hvd := hvalid_of_match d hd hq
        obtain ⟨s, hs⟩ := validDealer_city hvd
        rw [getField_popId_ne d (show ¬ "city" = "_id" by decide)] at hs
        have hcity : dealerCityMatches d "" = true := by
          unfold dealerCityMatches
          rw [hs]
          exact containsInsens_empty s
        rw [hcity]
        simp
    · have htr : optStrTruthy (some c) = true := by
        simp [optStrTruthy, hc]
      have hq1 : dealersQuery (some c) z =
          ("city", Cond.regexI c) ::
          (if optStrTruthy z then [("zip", Cond.eqStr (z.getD ""))] else []) := by
        simp [dealersQuery, htr]
      rw [hq1, matchesQ_cons, matchesQ_zipPart]
      rfl
  · rfl

/-- Witness for C6: the Springfield dealer is exactly the filter's
result for city "Spring". -/
theorem claim6_witness :
    list_dealers (some springDB) (some "Spring") none =
      Except.ok [popId springDealerDoc] ∧
    [popId springDealerDoc] =
      (springDB.dealer.filter
        (fun d => dealerCityMatches d "Spring" && dealerZipMatches d none)).map popId :=
  ⟨rfl, claim6_theorem.1 springDB "Spring" none [popId springDealerDoc] rfl⟩

end AuroraAPI
